import Mathlib

/-!
Shallow embedding of `pydatastream/pydatastream.py` (class `Datastream`).

The SOAP transport (`suds.client.Client`) is external: network calls are
modelled by an oracle `net : String → Option RawRecord` mapping a query
string to the raw record the service returns (`none` = transport failure).
Python exceptions other than the explicitly raised `DatastreamException`
(KeyError, IndexError, TypeError, pandas ValueError) are modelled by
`Option`'s `none`; `DatastreamException` is an explicit outcome value so
that its message can be inspected.  Side effects on `self` (the mutable
`last_status` field) and emitted `warnings.warn` calls are threaded through
an explicit `Session` state.
-/

namespace DWE

/-- A calendar date, standing in for Python `datetime.datetime` at midnight
(the only temporal values the library manipulates). -/
structure Date where
  y : Nat
  m : Nat
  d : Nat
deriving DecidableEq, Repr

/-- Zero-padded two-digit rendering, as `strftime` `%m` / `%d` / `%y`. -/
def pad2 (n : Nat) : String :=
  if n < 10 then "0" ++ toString n else toString n

/-- Zero-padded four-digit rendering, as `strftime` `%Y`. -/
def pad4 (n : Nat) : String :=
  if n < 10 then "000" ++ toString n
  else if n < 100 then "00" ++ toString n
  else if n < 1000 then "0" ++ toString n
  else toString n

/-- `strftime('%Y-%m-%d')`. -/
def Date.fmt (dt : Date) : String :=
  pad4 dt.y ++ "-" ++ pad2 dt.m ++ "-" ++ pad2 dt.d

/-- `strftime('%m%y')` (used by `get_constituents`). -/
def Date.fmtMY (dt : Date) : String :=
  pad2 dt.m ++ pad2 (dt.y % 100)

/-- A field value of a raw record.  `vDate` is a `datetime` scalar, `vStr`
an opaque scalar payload (string/number), `vNat` a plain integer (used for
the synthetic row index), and `vSeq` the one-element `ArrayOf…` wrapper that
suds puts around a series: in Python `v[0]` on such a wrapper yields the
underlying list, modelled here by `vSeq` holding that list directly. -/
inductive Value where
  | vDate (dt : Date)
  | vStr (s : String)
  | vNat (n : Nat)
  | vSeq (items : List Value)
deriving Repr

/-- Python `v[0]` on a series wrapper: yields the wrapped list.  Scalars are
not subscriptable (`TypeError`), modelled by `none`. -/
def Value.item0 : Value → Option (List Value)
  | .vSeq items => some items
  | _ => none

/-- A status message as stored in `last_status`: `status` stores the plain
string from the record (`str(...)`), while the `INSTERROR` branch of
`parse_record` overwrites it with a Python list of strings. -/
inductive Msg where
  | s (m : String)
  | l (ms : List String)
deriving DecidableEq, Repr

/-- One raw record as returned by `RequestRecord`.  `Fields` models
`record['Fields'][0]`, the flat list of (name, value) pairs.  The status
members are strings on the wire (`str(...)` in `status` is the identity). -/
structure RawRecord where
  Source : String
  StatusType : String
  StatusCode : Int
  StatusMessage : String
  Instrument : String
  Fields : List (String × Value)

/-- The dictionary built by `Datastream.status` and stored in
`self.last_status`. -/
structure Status where
  Source : String
  StatusType : String
  StatusCode : Int
  StatusMessage : Msg
  Request : String
deriving DecidableEq, Repr

/-- The mutable session state of a `Datastream` instance that the parsing
code observes and updates: the `raise_on_error` policy flag, `last_status`,
and the stream of warnings emitted via `warnings.warn` (in emission order).
The `show_request` echo flag only affects printing and is omitted. -/
structure Session where
  raise_on_error : Bool
  last_status : Option Status
  warnings : List String
deriving DecidableEq, Repr

/-- In-memory model of a `pandas.DataFrame`: a row index plus labelled
columns (each column a list of cell values, one per row).  Column order
follows insertion order; the claims below only depend on the column-name
multiset and the column contents. -/
structure DataFrame where
  index : List Value
  cols : List (String × List Value)

/-- `pd.DataFrame()`. -/
def emptyDF : DataFrame := ⟨[], []⟩

/-- `pd.DataFrame(dict, index=idx)`: pandas refuses a column whose length
differs from the index length (`ValueError`), modelled by `none`. -/
def mkDataFrame (cols : List (String × List Value)) (index : List Value) :
    Option DataFrame :=
  if cols.all (fun p => p.2.length == index.length) then some ⟨index, cols⟩ else none

/-- `data[x] = scalar`: broadcast a scalar to a constant column, replacing an
existing column of that name or appending a fresh one. -/
def DataFrame.setCol (df : DataFrame) (name : String) (v : Value) : DataFrame :=
  let col := List.replicate df.index.length v
  if df.cols.any (fun p => p.1 == name) then
    { df with cols := df.cols.map (fun p => if p.1 == name then (name, col) else p) }
  else
    { df with cols := df.cols ++ [(name, col)] }

/-- Column lookup by name (first match). -/
def DataFrame.getCol (df : DataFrame) (name : String) : Option (List Value) :=
  (df.cols.find? (fun p => p.1 == name)).map Prod.snd

/-- Prefix test on character lists. -/
def isPrefixChars : List Char → List Char → Bool
  | [], _ => true
  | _ :: _, [] => false
  | a :: as, b :: bs => a == b && isPrefixChars as bs

/-- Substring test on character lists: does `pat` occur in `s`? -/
def containsChars (pat : List Char) : List Char → Bool
  | [] => isPrefixChars pat []
  | c :: rest => isPrefixChars pat (c :: rest) || containsChars pat rest

/-- Python `pat in s` substring test. -/
def containsStr (s pat : String) : Bool :=
  containsChars pat.data s.data

/-- `Option`-valued `mapM` over a list, written out structurally so that
proofs can proceed by plain induction. -/
def omapM (f : α → Option β) : List α → Option (List β)
  | [] => some []
  | a :: as =>
    match f a, omapM f as with
    | some b, some bs => some (b :: bs)
    | _, _ => none

mutual
/-- Python `str(value)`: identity on strings, `datetime` renders as
`YYYY-MM-DD HH:MM:SS`, sequences as a bracketed rendering. -/
def pyStr : Value → String
  | .vStr s => s
  | .vDate dt => dt.fmt ++ " 00:00:00"
  | .vNat n => toString n
  | .vSeq items => "[" ++ pyStrList items ++ "]"

/-- Comma-joined rendering of a list of values. -/
def pyStrList : List Value → String
  | [] => ""
  | [v] => pyStr v
  | v :: vs => pyStr v ++ ", " ++ pyStrList vs
end

/-- Python `repr` of a list of strings, as interpolated by `'%s' % error`
(inner quoting of special characters is not modelled). -/
def pyListRepr (l : List String) : String :=
  "[" ++ String.intercalate ", " (l.map (fun s => "\x27" ++ s ++ "\x27")) ++ "]"

/-- `Msg` as rendered by `'%s'`. -/
def Msg.render : Msg → String
  | .s m => m
  | .l ms => pyListRepr ms

/-- The record-field accessor of `parse_record`:
`lambda name: [x[1] for x in record['Fields'][0] if x[0] == name][0]`
(first field of that name; `IndexError` → `none` when absent). -/
def get_field (record : RawRecord) (name : String) : Option Value :=
  (record.Fields.find? (fun p => p.1 == name)).map Prod.snd

/-- `Datastream.status(record)`: the dictionary it builds and stores in
`self.last_status` (the `str(...)` coercions are identities here). -/
def statusOf (record : RawRecord) : Status :=
  { Source := record.Source
    StatusType := record.StatusType
    StatusCode := record.StatusCode
    StatusMessage := .s record.StatusMessage
    Request := record.Instrument }

/-- The warnings `_test_status_and_warn` emits for a given `last_status`:
nothing when connected, otherwise `'[DWE] ' + message` with a list message
joined by `';'`. -/
def warn_of_status (st : Status) : List String :=
  if st.StatusType ≠ "Connected" then
    match st.StatusMessage with
    | .s m => ["[DWE] " ++ m]
    | .l ms => ["[DWE] " ++ String.intercalate ";" ms]
  else []

/-- `Datastream._test_status_and_warn`: reads `self.last_status` and warns.
Subscripting a `None` status is a Python `TypeError` (`none`). -/
def test_status_and_warn (sess : Session) : Option Session :=
  match sess.last_status with
  | none => none
  | some st => some { sess with warnings := sess.warnings ++ warn_of_status st }

/-- The message of the `DatastreamException` raised on a non-`Connected`
status: `'%s (error %i): %s --> "%s"'`. -/
def serviceErrMsg (st : Status) : String :=
  st.StatusType ++ " (error " ++ toString st.StatusCode ++ "): " ++
  st.StatusMessage.render ++ " --> \"" ++ st.Request ++ "\""

/-- The message of the `DatastreamException` raised on instrument errors:
`'Error: %s --> "%s"'`. -/
def instErrMsg (error : List String) (request : String) : String :=
  "Error: " ++ pyListRepr error ++ " --> \"" ++ request ++ "\""

/-- The collected instrument errors:
`[str(x[1]) for x in record['Fields'][0] if 'INSTERROR' in x[0]]`. -/
def instErrors (record : RawRecord) : List String :=
  (record.Fields.filter (fun p => containsStr p.1 "INSTERROR")).map (fun p => pyStr p.2)

/-- `meta_fields = ['CCY', 'DISPNAME', 'FREQUENCY', 'SYMBOL', 'DATE']`. -/
def meta_fields : List String := ["CCY", "DISPNAME", "FREQUENCY", "SYMBOL", "DATE"]

/-- The data-field names of a record:
`[str(x[0]) for x in record['Fields'][0] if (x[0] not in meta_fields and 'INSTERROR' not in x[0])]`. -/
def dataFields (record : RawRecord) : List String :=
  (record.Fields.filter
    (fun p => !(meta_fields.contains p.1) && !(containsStr p.1 "INSTERROR"))).map Prod.fst

/-- Metadata dictionaries are modelled as key/value lists in insertion
order. -/
abbrev MetaDict := List (String × String)

/-- The empty-string metadata placeholders of the `INSTERROR` branch. -/
def placeholderMeta : MetaDict :=
  [("Frequency", ""), ("Currency", ""), ("DisplayName", ""), ("Symbol", "")]

/-- The metadata dictionary of a healthy record (lines 196-199); `none` when
one of the four named fields is absent (`IndexError` in `get_field`). -/
def buildMeta (record : RawRecord) : Option MetaDict :=
  match get_field record "FREQUENCY", get_field record "CCY",
        get_field record "DISPNAME", get_field record "SYMBOL" with
  | some f, some c, some dn, some sy =>
      some [("Frequency", pyStr f), ("Currency", pyStr c),
            ("DisplayName", pyStr dn), ("Symbol", pyStr sy)]
  | _, _, _, _ => none

/-- Outcome of `parse_record`: an explicitly raised `DatastreamException`,
a single table (inline-metadata mode), or the `(data, metadata)` pair. -/
inductive ParseOutcome where
  | exc (msg : String)
  | single (df : DataFrame)
  | pair (df : DataFrame) (meta : MetaDict)

/-- The dict comprehension `{x:[get_field(x)] for x in fields}` of the
single-observation branch: one singleton column per data field. -/
def scalarCols (record : RawRecord) : Option (List (String × List Value)) :=
  omapM (fun x => (get_field record x).map (fun v => (x, [v]))) (dataFields record)

/-- The dict comprehension `{x:get_field(x)[0] for x in fields}` of the
series branch: each data field must itself be a series wrapper. -/
def seriesCols (record : RawRecord) : Option (List (String × List Value)) :=
  omapM (fun x => (get_field record x).bind
    (fun v => v.item0.map (fun l => (x, l)))) (dataFields record)

/-- The inline-metadata loop `for x in metadata: data[x] = metadata[x]`. -/
def inlineMeta (metadata : MetaDict) (df : DataFrame) : DataFrame :=
  metadata.foldl (fun acc kv => acc.setCol kv.1 (.vStr kv.2)) df

/-- Lines 201-220 of `parse_record`: assemble the data table from the data
fields, branching on whether `DATE` is a `datetime` scalar or a series, then
either inline the metadata as constant columns or return the pair. -/
def buildTable (record : RawRecord) (metadata : MetaDict) (inline_metadata : Bool) :
    Option ParseOutcome := do
  let dv ← get_field record "DATE"
  let df ←
    match dv with
    | .vDate dt => do
        let cols ← scalarCols record
        mkDataFrame cols [.vDate dt]
    | _ => do
        let cols ← seriesCols record
        let idx ← dv.item0
        mkDataFrame cols idx
  if inline_metadata then
    some (.single (inlineMeta metadata df))
  else
    some (.pair df metadata)

/-- The session-independent core of `parse_record`: given the policy flag it
returns the final `last_status`, the warnings emitted, and the outcome.
Mirrors lines 170-220 of the source. -/
def parse_core (roe : Bool) (record : RawRecord) (inline_metadata : Bool) :
    Option (Status × List String × ParseOutcome) :=
  let st := statusOf record
  if st.StatusType ≠ "Connected" then
    if roe then some (st, [], .exc (serviceErrMsg st))
    else some (st, warn_of_status st, .pair emptyDF [])
  else
    let error := instErrors record
    if error.length > 0 then
      if roe then some (st, [], .exc (instErrMsg error st.Request))
      else
        let st2 := { st with StatusMessage := .l error, StatusType := "INSTERROR" }
        (buildTable record placeholderMeta inline_metadata).map
          (fun o => (st2, warn_of_status st2, o))
    else
      match buildMeta record with
      | none => none
      | some md =>
          (buildTable record md inline_metadata).map (fun o => (st, [], o))

/-- `Datastream.parse_record`: every path first overwrites `last_status`
with the record's status (possibly re-overwritten by the `INSTERROR`
branch) and appends the emitted warnings. -/
def parse_record (sess : Session) (record : RawRecord) (inline_metadata : Bool) :
    Option (Session × ParseOutcome) :=
  (parse_core sess.raise_on_error record inline_metadata).map
    (fun t => ({ sess with last_status := some t.1,
                           warnings := sess.warnings ++ t.2.1 }, t.2.2))

/-- The ticker argument of `construct_request` / `fetch`: a single string
or a list of tickers (the `isinstance(ticker, list)` branch). -/
inductive Ticker where
  | one (s : String)
  | many (l : List String)

/-- The `fields` argument of `construct_request`: a single string or a list
of field mnemonics. -/
inductive FieldsArg where
  | fstr (s : String)
  | flist (l : List String)

/-- `Datastream.construct_request` (static): ticker, then `~=fields`, then
`~@date` or `~date_from` / `~:date_to`, then `~freq`.  `pd.to_datetime`
followed by `strftime('%Y-%m-%d')` is `Date.fmt` on the already-parsed
date. -/
def construct_request (ticker : Ticker) (fields : Option FieldsArg)
    (date : Option Date) (date_from : Option Date) (date_to : Option Date)
    (freq : Option String) : String :=
  let request :=
    match ticker with
    | .many l => String.intercalate "," l
    | .one s => s
  let request :=
    match fields with
    | none => request
    | some (.fstr s) => request ++ "~=" ++ s
    | some (.flist l) =>
        if l.length > 0 then request ++ "~=" ++ String.intercalate "," l else request
  let request :=
    match date with
    | some dt => request ++ "~@" ++ dt.fmt
    | none =>
        let request :=
          match date_from with
          | some dt => request ++ "~" ++ dt.fmt
          | none => request
        match date_to with
        | some dt => request ++ "~:" ++ dt.fmt
        | none => request
  match freq with
  | some f => request ++ "~" ++ f
  | none => request

/-- The message of the `DatastreamException` raised by `fetch` on a
non-string ticker. -/
def fetchTickerMsg : String :=
  "Requested ticker should be in a string format. " ++
  "In order to fetch multiple tickers at once " ++
  "use \"fetch_many\" method."

/-- Outcome of `fetch` and of the convenience getters: a raised
`DatastreamException`, the data table alone, or the `(data, meta)` pair. -/
inductive FetchOutcome where
  | exc (msg : String)
  | data (df : DataFrame)
  | dataMeta (df : DataFrame) (meta : MetaDict)

/-- `Datastream.fetch`: reject non-string tickers, build the query, submit
it through the transport oracle `net`, parse, and return the table (plus
metadata unless `only_data`).  `parse_record` is called with its default
`inline_metadata=False`, so the `single` outcome cannot occur (`none`). -/
def fetch (net : String → Option RawRecord) (sess : Session) (ticker : Ticker)
    (fields : Option FieldsArg) (date : Option Date) (date_from : Option Date)
    (date_to : Option Date) (freq : Option String) (only_data : Bool) :
    Option (Session × FetchOutcome) :=
  match ticker with
  | .many _ => some (sess, .exc fetchTickerMsg)
  | .one t => do
      let query := construct_request (.one t) fields date date_from date_to freq
      let raw ← net query
      let so ← parse_record sess raw false
      match so.2 with
      | .exc m => some (so.1, .exc m)
      | .single _ => none
      | .pair df meta =>
          if only_data then some (so.1, .data df) else some (so.1, .dataMeta df meta)

/-- `Datastream.get_OHLCV`: fetch `ticker + "~OHLCV"` daily with metadata,
re-run the status warning check, and return the table alone. -/
def get_OHLCV (net : String → Option RawRecord) (sess : Session) (ticker : String)
    (date : Option Date) (date_from : Option Date) (date_to : Option Date) :
    Option (Session × FetchOutcome) := do
  let so ← fetch net sess (.one (ticker ++ "~OHLCV")) none date date_from date_to
            (some "D") false
  match so.2 with
  | .exc m => some (so.1, .exc m)
  | .dataMeta df _ => do
      let sess2 ← test_status_and_warn so.1
      some (sess2, .data df)
  | .data _ => none

/-- `Datastream.get_OHLC`: as `get_OHLCV` with suffix `"~OHLC"`. -/
def get_OHLC (net : String → Option RawRecord) (sess : Session) (ticker : String)
    (date : Option Date) (date_from : Option Date) (date_to : Option Date) :
    Option (Session × FetchOutcome) := do
  let so ← fetch net sess (.one (ticker ++ "~OHLC")) none date date_from date_to
            (some "D") false
  match so.2 with
  | .exc m => some (so.1, .exc m)
  | .dataMeta df _ => do
      let sess2 ← test_status_and_warn so.1
      some (sess2, .data df)
  | .data _ => none

/-- `Datastream.get_price`: as `get_OHLCV` with no suffix. -/
def get_price (net : String → Option RawRecord) (sess : Session) (ticker : String)
    (date : Option Date) (date_from : Option Date) (date_to : Option Date) :
    Option (Session × FetchOutcome) := do
  let so ← fetch net sess (.one ticker) none date date_from date_to (some "D") false
  match so.2 with
  | .exc m => some (so.1, .exc m)
  | .dataMeta df _ => do
      let sess2 ← test_status_and_warn so.1
      some (sess2, .data df)
  | .data _ => none

/-- The key list of the Python dict `{x[0]:x[1] for x in raw['Fields'][0]}`:
first-occurrence order, duplicates collapsed. -/
def pyKeys (fields : List (String × Value)) : List String :=
  fields.foldl (fun acc p => if acc.contains p.1 then acc else acc ++ [p.1]) []

/-- Dict lookup on the same dict: on duplicate field names the later pair
wins, as in Python dict construction. -/
def dictGet (fields : List (String × Value)) (name : String) : Option Value :=
  (fields.reverse.find? (fun p => p.1 == name)).map Prod.snd

/-- `fld_name` of `get_constituents`: `field` for row 0, `field_%i(indx+1)`
for later rows. -/
def fld_name (field : String) (indx : Nat) : String :=
  if indx == 0 then field else field ++ "_" ++ toString (indx + 1)

/-- The no-underscore key list `[x for x in record if '_' not in x]`
(before `DATE` is removed). -/
def noUnderscoreKeys (fields : List (String × Value)) : List String :=
  (pyKeys fields).filter (fun x => !(containsStr x "_"))

/-- The constituent column names: keys without `'_'`, with `DATE` removed
(`fields.remove('DATE')` raises `ValueError` when absent, see below). -/
def constituentFields (fields : List (String × Value)) : List String :=
  (noUnderscoreKeys fields).erase "DATE"

/-- The inferred row count: how many keys contain `SYMBOL`. -/
def symbolCount (fields : List (String × Value)) : Nat :=
  ((pyKeys fields).filter (fun x => containsStr x "SYMBOL")).length

/-- The default integer row index of `pd.DataFrame(dict)`. -/
def defaultIndex (n : Nat) : List Value :=
  (List.range n).map (fun i => .vNat i)

/-- The dict comprehension
`{fld:[record[fld_name(fld,ind)] for ind in range(num)] for fld in fields}`
of `get_constituents` (`record[...]` raises `KeyError` → `none`). -/
def constituentCols (fields : List (String × Value)) :
    Option (List (String × List Value)) :=
  omapM (fun fld =>
    (omapM (fun ind => dictGet fields (fld_name fld ind))
        (List.range (symbolCount fields))).map
      (fun col => (fld, col))) (constituentFields fields)

/-- `Datastream.get_constituents`: build `'L' + ticker + MMYY + '~XREF'`,
submit through `net`, check status like `parse_record`, then reshape the
flat record via the numbered-suffix convention. -/
def get_constituents (net : String → Option RawRecord) (sess : Session)
    (index_ticker : String) (date : Option Date) :
    Option (Session × FetchOutcome) := do
  let str_date := match date with
    | some dt => dt.fmtMY
    | none => ""
  let query := "L" ++ index_ticker ++ str_date ++ "~XREF"
  let raw ← net query
  let st := statusOf raw
  let sess1 := { sess with last_status := some st }
  if st.StatusType ≠ "Connected" then
    if sess1.raise_on_error then
      some (sess1, .exc (serviceErrMsg st))
    else do
      let sess2 ← test_status_and_warn sess1
      some (sess2, .data emptyDF)
  else
    if (noUnderscoreKeys raw.Fields).contains "DATE" then do
      let cols ← constituentCols raw.Fields
      some (sess1, .data ⟨defaultIndex (symbolCount raw.Fields), cols⟩)
    else
      none

/-! ### Spec-side query decomposition

The specification describes `construct_request` as a concatenation of four
independent parts in a fixed order (fields, then date, then frequency).
The four functions below are written from the spec's wording and are
compared against `construct_request` in the theorem for that claim. -/

/-- Spec wording: the ticker prefix (a list is joined with `,`). -/
def tickerPart : Ticker → String
  | .many l => String.intercalate "," l
  | .one s => s

/-- Spec wording: `~=` then the single field or the fields joined with `,`
(nothing for an absent or empty list). -/
def fieldsPart : Option FieldsArg → String
  | none => ""
  | some (.fstr s) => "~=" ++ s
  | some (.flist l) =>
      if l.length > 0 then "~=" ++ String.intercalate "," l else ""

/-- Spec wording: `~@date`, or else the optional `~date_from` and
`~:date_to` pieces. -/
def datePart : Option Date → Option Date → Option Date → String
  | some dt, _, _ => "~@" ++ dt.fmt
  | none, date_from, date_to =>
      (match date_from with
       | some dt => "~" ++ dt.fmt
       | none => "") ++
      (match date_to with
       | some dt => "~:" ++ dt.fmt
       | none => "")

/-- Spec wording: `~freq` when given. -/
def freqPart : Option String → String
  | some f => "~" ++ f
  | none => ""

/-! ### Concrete records used by the witnesses -/

/-- A fresh session with the non-raising policy. -/
def exSessWarn : Session :=
  { raise_on_error := false, last_status := none, warnings := [] }

/-- A fresh session with the raising policy. -/
def exSessRaise : Session :=
  { raise_on_error := true, last_status := none, warnings := [] }

/-- A stale record with no data fields. -/
def exStale : RawRecord :=
  { Source := "Datastream", StatusType := "Stale", StatusCode := 2,
    StatusMessage := "down", Instrument := "X~D", Fields := [] }

/-- A failed record that also carries an `INSTERROR` field. -/
def exFail : RawRecord :=
  { Source := "Datastream", StatusType := "Failure", StatusCode := 5,
    StatusMessage := "no item", Instrument := "BAD~D",
    Fields := [("INSTERROR,E100", .vStr "Invalid code")] }

/-- A healthy single-observation record with one data field `P`. -/
def exOk : RawRecord :=
  { Source := "Datastream", StatusType := "Connected", StatusCode := 0,
    StatusMessage := "", Instrument := "AAPL",
    Fields := [("FREQUENCY", .vStr "D"), ("CCY", .vStr "USD"),
               ("DISPNAME", .vStr "Apple"), ("SYMBOL", .vStr "AAPL"),
               ("DATE", .vDate ⟨2020, 1, 1⟩), ("P", .vStr "100")] }

/-- The metadata dictionary of `exOk`. -/
def exOkMeta : MetaDict :=
  [("Frequency", "D"), ("Currency", "USD"),
   ("DisplayName", "Apple"), ("Symbol", "AAPL")]

/-- A healthy two-observation series record with one data field `P`. -/
def exSeries : RawRecord :=
  { exOk with Fields :=
      [("FREQUENCY", .vStr "D"), ("CCY", .vStr "USD"),
       ("DISPNAME", .vStr "Apple"), ("SYMBOL", .vStr "AAPL"),
       ("DATE", .vSeq [.vDate ⟨2020, 1, 1⟩, .vDate ⟨2020, 1, 2⟩]),
       ("P", .vSeq [.vStr "1", .vStr "2"])] }

/-- A connected record whose only anomaly is an instrument error. -/
def exErr : RawRecord :=
  { Source := "Datastream", StatusType := "Connected", StatusCode := 0,
    StatusMessage := "", Instrument := "WRONG",
    Fields := [("INSTERROR,E100", .vStr "Invalid code"),
               ("DATE", .vDate ⟨2020, 1, 1⟩)] }

/-- The flat constituents record of the spec's example: `SYMBOL, SYMBOL_2,
CCY, CCY_2` and a `DATE` but no `DATE_2`. -/
def exCon : RawRecord :=
  { Source := "Datastream", StatusType := "Connected", StatusCode := 0,
    StatusMessage := "", Instrument := "LIDX~XREF",
    Fields := [("DATE", .vDate ⟨2020, 1, 1⟩),
               ("SYMBOL", .vStr "A"), ("SYMBOL_2", .vStr "B"),
               ("CCY", .vStr "USD"), ("CCY_2", .vStr "EUR")] }

/-- A transport oracle answering every query with `exStale`. -/
def netStale : String → Option RawRecord := fun _ => some exStale

/-- A transport oracle answering only the constituents query for `IDX`. -/
def netCon : String → Option RawRecord :=
  fun q => if q == "LIDX~XREF" then some exCon else none

/-! ## Helper lemmas -/

theorem omapM_length {α β : Type _} {f : α → Option β} {l : List α} {bs : List β}
    (h : omapM f l = some bs) : bs.length = l.length := by
  induction l generalizing bs with
  | nil =>
      simp only [omapM] at h
      cases h
      rfl
  | cons a as ih =>
      simp only [omapM] at h
      cases hfa : f a with
      | none => rw [hfa] at h; exact absurd h (by simp)
      | some b =>
          rw [hfa] at h
          cases hrec : omapM f as with
          | none => rw [hrec] at h; exact absurd h (by simp)
          | some bs' =>
              rw [hrec] at h
              cases h
              simp [ih hrec]

theorem omapM_get? {α β : Type _} {f : α → Option β} {l : List α} {bs : List β}
    (h : omapM f l = some bs) : ∀ i : Nat, (l.get? i).bind f = bs.get? i := by
  induction l generalizing bs with
  | nil =>
      simp only [omapM] at h
      cases h
      intro i
      simp
  | cons a as ih =>
      simp only [omapM] at h
      cases hfa : f a with
      | none => rw [hfa] at h; exact absurd h (by simp)
      | some b =>
          rw [hfa] at h
          cases hrec : omapM f as with
          | none => rw [hrec] at h; exact absurd h (by simp)
          | some bs' =>
              rw [hrec] at h
              cases h
              intro i
              cases i with
              | zero => simpa using hfa
              | succ j => simpa using ih hrec j

theorem omapM_mem {α β : Type _} {f : α → Option β} {l : List α} {bs : List β}
    (h : omapM f l = some bs) : ∀ b ∈ bs, ∃ a ∈ l, f a = some b := by
  induction l generalizing bs with
  | nil =>
      simp only [omapM] at h
      cases h
      intro b hb
      simp at hb
  | cons a as ih =>
      simp only [omapM] at h
      cases hfa : f a with
      | none => rw [hfa] at h; exact absurd h (by simp)
      | some b0 =>
          rw [hfa] at h
          cases hrec : omapM f as with
          | none => rw [hrec] at h; exact absurd h (by simp)
          | some bs' =>
              rw [hrec] at h
              cases h
              intro b hb
              rcases List.mem_cons.mp hb with hb | hb
              · exact ⟨a, List.mem_cons_self a as, hb ▸ hfa⟩
              · obtain ⟨a', ha', hfa'⟩ := ih hrec b hb
                exact ⟨a', List.mem_cons_of_mem a ha', hfa'⟩

theorem omapM_fst {α γ : Type _} {f : α → Option (α × γ)} {l : List α}
    {cols : List (α × γ)} (hf : ∀ x p, f x = some p → p.1 = x)
    (h : omapM f l = some cols) : cols.map Prod.fst = l := by
  induction l generalizing cols with
  | nil =>
      simp only [omapM] at h
      cases h
      rfl
  | cons a as ih =>
      simp only [omapM] at h
      cases hfa : f a with
      | none => rw [hfa] at h; exact absurd h (by simp)
      | some p =>
          rw [hfa] at h
          cases hrec : omapM f as with
          | none => rw [hrec] at h; exact absurd h (by simp)
          | some ps =>
              rw [hrec] at h
              cases h
              simp [hf a p hfa, ih hrec]

theorem omapM_isSome {α β : Type _} {f : α → Option β} {l : List α}
    (h : ∀ a ∈ l, (f a).isSome) : ∃ bs, omapM f l = some bs := by
  induction l with
  | nil => exact ⟨[], rfl⟩
  | cons a as ih =>
      obtain ⟨b, hb⟩ := Option.isSome_iff_exists.mp (h a (List.mem_cons_self a as))
      obtain ⟨bs, hbs⟩ := ih (fun x hx => h x (List.mem_cons_of_mem a hx))
      exact ⟨b :: bs, by simp only [omapM]; rw [hb, hbs]⟩

theorem find?_fst_isSome {γ : Type _} {l : List (String × γ)} {x : String}
    (h : x ∈ l.map Prod.fst) : (l.find? (fun p => p.1 == x)).isSome := by
  rw [List.find?_isSome]
  obtain ⟨p, hp, hpx⟩ := List.mem_map.mp h
  exact ⟨p, hp, by simp [hpx]⟩

theorem get_field_isSome {r : RawRecord} {x : String}
    (h : x ∈ dataFields r) : (get_field r x).isSome := by
  unfold dataFields at h
  obtain ⟨p, hp, rfl⟩ := List.mem_map.mp h
  have hx : p.1 ∈ r.Fields.map Prod.fst :=
    List.mem_map.mpr ⟨p, List.mem_of_mem_filter hp, rfl⟩
  unfold get_field
  obtain ⟨q, hq⟩ := Option.isSome_iff_exists.mp (find?_fst_isSome hx)
  rw [hq]
  rfl

theorem mkDataFrame_eq_some {cols : List (String × List Value)} {idx : List Value}
    {df : DataFrame} (h : mkDataFrame cols idx = some df) :
    df.index = idx ∧ df.cols = cols ∧ ∀ p ∈ cols, p.2.length = idx.length := by
  unfold mkDataFrame at h
  split at h
  case isTrue hall =>
    cases h
    refine ⟨rfl, rfl, fun p hp => ?_⟩
    exact beq_iff_eq.mp (List.all_eq_true.mp hall p hp)
  case isFalse => exact absurd h (by simp)

theorem mkDataFrame_some_of {cols : List (String × List Value)} {idx : List Value}
    (h : ∀ p ∈ cols, p.2.length = idx.length) :
    mkDataFrame cols idx = some ⟨idx, cols⟩ := by
  unfold mkDataFrame
  rw [if_pos]
  exact List.all_eq_true.mpr fun p hp => beq_iff_eq.mpr (h p hp)

theorem find?_append_of_none {α : Type _} {p : α → Bool} {l₁ l₂ : List α}
    (h : l₁.find? p = none) : (l₁ ++ l₂).find? p = l₂.find? p := by
  rw [List.find?_append, h, Option.none_or]

theorem setCol_index (df : DataFrame) (n : String) (v : Value) :
    (df.setCol n v).index = df.index := by
  simp only [DataFrame.setCol]
  split <;> rfl

theorem find?_map_overwrite {cols : List (String × List Value)} {n : String}
    (col : List Value) (h : cols.any (fun p => p.1 == n)) :
    ((cols.map (fun p => if p.1 == n then (n, col) else p)).find?
      (fun p => p.1 == n)) = some (n, col) := by
  induction cols with
  | nil => simp at h
  | cons p ps ih =>
      simp only [List.any_cons, Bool.or_eq_true] at h
      by_cases hp : (p.1 == n) = true
      · simp only [List.map_cons, if_pos hp]
        rw [List.find?_cons_of_pos _ (by simp)]
      · simp only [List.map_cons, if_neg hp]
        rw [List.find?_cons_of_neg _ (by simpa using hp)]
        rcases h with h | h
        · exact absurd h hp
        · exact ih h

theorem getCol_setCol_self (df : DataFrame) (n : String) (v : Value) :
    (df.setCol n v).getCol n = some (List.replicate df.index.length v) := by
  simp only [DataFrame.setCol, DataFrame.getCol]
  split
  case isTrue h =>
      rw [find?_map_overwrite (List.replicate df.index.length v) h]
      rfl
  case isFalse h =>
      have hn : df.cols.find? (fun p => p.1 == n) = none := by
        rw [List.find?_eq_none]
        intro x hx hbx
        exact h (List.any_eq_true.mpr ⟨x, hx, hbx⟩)
      rw [find?_append_of_none hn,
          List.find?_cons_of_pos _ (by simp)]
      rfl

theorem find?_map_skip {cols : List (String × List Value)} {n m : String}
    (col : List Value) (hnm : m ≠ n) :
    ((cols.map (fun p => if p.1 == n then (n, col) else p)).find?
      (fun p => p.1 == m)) = cols.find? (fun p => p.1 == m) := by
  induction cols with
  | nil => rfl
  | cons p ps ih =>
      by_cases hp : (p.1 == n) = true
      · have hpn : p.1 = n := beq_iff_eq.mp hp
        have h1 : (n == m) = false :=
          beq_eq_false_iff_ne.mpr (fun hc => hnm hc.symm)
        have h2 : (p.1 == m) = false := by rw [hpn]; exact h1
        simp only [List.map_cons, if_pos hp, List.find?, h1, h2]
        exact ih
      · simp only [List.map_cons, if_neg hp, List.find?]
        cases hpm : (p.1 == m) with
        | true => rfl
        | false => exact ih

theorem getCol_setCol_ne (df : DataFrame) {n m : String} (v : Value)
    (hm : m ≠ n) : (df.setCol n v).getCol m = df.getCol m := by
  simp only [DataFrame.setCol, DataFrame.getCol]
  split
  case isTrue h =>
      rw [find?_map_skip (List.replicate df.index.length v) hm]
  case isFalse h =>
      cases hfind : df.cols.find? (fun p => p.1 == m) with
      | some q => rw [List.find?_append, hfind]; rfl
      | none =>
          rw [find?_append_of_none hfind]
          have h1 : (n == m) = false :=
            beq_eq_false_iff_ne.mpr (fun hc => hm hc.symm)
          simp [List.find?, h1]

theorem map_fst_overwrite {cols : List (String × List Value)} {n : String}
    (col : List Value) :
    ((cols.map (fun p => if p.1 == n then (n, col) else p)).map Prod.fst)
      = cols.map (fun p => if p.1 == n then n else p.1) := by
  induction cols with
  | nil => rfl
  | cons p ps ih =>
      by_cases hp : (p.1 == n) = true
      · simp only [List.map_cons, if_pos hp, ih]
      · simp only [List.map_cons, if_neg hp, ih]

theorem mem_map_fst_setCol (df : DataFrame) (n : String) (v : Value) (m : String) :
    m ∈ (df.setCol n v).cols.map Prod.fst ↔ m ∈ df.cols.map Prod.fst ∨ m = n := by
  simp only [DataFrame.setCol]
  split
  case isTrue h =>
      obtain ⟨q, hq, hqn⟩ := List.any_eq_true.mp h
      rw [map_fst_overwrite]
      constructor
      · intro hmem
        obtain ⟨p, hp, hpm⟩ := List.mem_map.mp hmem
        by_cases hpn : (p.1 == n) = true
        · right
          rw [if_pos hpn] at hpm
          exact hpm.symm
        · left
          rw [if_neg hpn] at hpm
          exact List.mem_map.mpr ⟨p, hp, hpm⟩
      · rintro (hmem | rfl)
        · obtain ⟨p, hp, rfl⟩ := List.mem_map.mp hmem
          by_cases hpn : (p.1 == n) = true
          · refine List.mem_map.mpr ⟨q, hq, ?_⟩
            rw [if_pos hqn, beq_iff_eq.mp hpn]
          · exact List.mem_map.mpr ⟨p, hp, by rw [if_neg hpn]⟩
        · exact List.mem_map.mpr ⟨q, hq, by rw [if_pos hqn]⟩
  case isFalse h =>
      simp [List.map_append]

/-! ## Path lemmas for `parse_core` -/

theorem parse_core_fail {r : RawRecord} {i : Bool}
    (hA : r.StatusType ≠ "Connected") :
    parse_core true r i = some (statusOf r, [], .exc (serviceErrMsg (statusOf r))) := by
  unfold parse_core
  rw [if_pos (show (statusOf r).StatusType ≠ "Connected" from hA)]
  rfl

theorem parse_core_fail_warn {r : RawRecord} {i : Bool}
    (hA : r.StatusType ≠ "Connected") :
    parse_core false r i =
      some (statusOf r, warn_of_status (statusOf r), .pair emptyDF []) := by
  unfold parse_core
  rw [if_pos (show (statusOf r).StatusType ≠ "Connected" from hA)]
  rfl

theorem parse_core_ok {r : RawRecord} {i : Bool} {roe : Bool} {md : MetaDict}
    (hA : r.StatusType = "Connected") (hB : instErrors r = [])
    (hM : buildMeta r = some md) :
    parse_core roe r i = (buildTable r md i).map (fun o => (statusOf r, [], o)) := by
  unfold parse_core
  rw [if_neg (show ¬ (statusOf r).StatusType ≠ "Connected" from by
        simp [statusOf, hA])]
  rw [hB]
  simp only [List.length_nil, gt_iff_lt, Nat.lt_irrefl, if_false, hM]

theorem parse_core_insterror {r : RawRecord} {i : Bool}
    (hA : r.StatusType = "Connected") (hE : instErrors r ≠ []) :
    parse_core false r i =
      (buildTable r placeholderMeta i).map
        (fun o =>
          ({ Source := r.Source, StatusType := "INSTERROR",
             StatusCode := r.StatusCode,
             StatusMessage := .l (instErrors r),
             Request := r.Instrument },
           ["[DWE] " ++ String.intercalate ";" (instErrors r)], o)) := by
  unfold parse_core
  rw [if_neg (show ¬ (statusOf r).StatusType ≠ "Connected" from by
        simp [statusOf, hA])]
  rw [if_pos (show (instErrors r).length > 0 from
        Nat.pos_of_ne_zero (fun hz => hE (List.length_eq_zero.mp hz)))]
  rfl

theorem parse_core_raise_insterror {r : RawRecord} {i : Bool}
    (hA : r.StatusType = "Connected") (hE : instErrors r ≠ []) :
    parse_core true r i =
      some (statusOf r, [], .exc (instErrMsg (instErrors r) r.Instrument)) := by
  unfold parse_core
  rw [if_neg (show ¬ (statusOf r).StatusType ≠ "Connected" from by
        simp [statusOf, hA])]
  rw [if_pos (show (instErrors r).length > 0 from
        Nat.pos_of_ne_zero (fun hz => hE (List.length_eq_zero.mp hz)))]
  rfl

/-! ## Lemmas about the table-building step -/

theorem scalarCols_isSome (r : RawRecord) : ∃ cols, scalarCols r = some cols := by
  apply omapM_isSome
  intro x hx
  obtain ⟨v, hv⟩ := Option.isSome_iff_exists.mp (get_field_isSome hx)
  rw [hv]
  rfl

theorem scalarCols_fst {r : RawRecord} {cols : List (String × List Value)}
    (h : scalarCols r = some cols) : cols.map Prod.fst = dataFields r := by
  apply omapM_fst ?_ h
  intro x p hp
  cases hg : get_field r x with
  | none => rw [hg] at hp; cases hp
  | some v => rw [hg] at hp; cases hp; rfl

theorem scalarCols_len {r : RawRecord} {cols : List (String × List Value)}
    (h : scalarCols r = some cols) : ∀ p ∈ cols, p.2.length = 1 := by
  intro p hp
  obtain ⟨a, _, ha⟩ := omapM_mem h p hp
  cases hg : get_field r a with
  | none => rw [hg] at ha; cases ha
  | some v => rw [hg] at ha; cases ha; rfl

theorem seriesCols_fst {r : RawRecord} {cols : List (String × List Value)}
    (h : seriesCols r = some cols) : cols.map Prod.fst = dataFields r := by
  apply omapM_fst ?_ h
  intro x p hp
  cases hg : get_field r x with
  | none => rw [hg] at hp; cases hp
  | some v =>
      rw [hg] at hp
      have hp' : (v.item0).map (fun l => (x, l)) = some p := hp
      cases hi : v.item0 with
      | none => rw [hi] at hp'; cases hp'
      | some l => rw [hi] at hp'; cases hp'; rfl

theorem buildTable_scalar {r : RawRecord} {md : MetaDict} {i : Bool} {dt : Date}
    {cols : List (String × List Value)}
    (hD : get_field r "DATE" = some (.vDate dt)) (hcols : scalarCols r = some cols) :
    buildTable r md i =
      some (if i then .single (inlineMeta md ⟨[.vDate dt], cols⟩)
            else .pair ⟨[.vDate dt], cols⟩ md) := by
  have hmk : mkDataFrame cols [Value.vDate dt] = some ⟨[Value.vDate dt], cols⟩ :=
    mkDataFrame_some_of (fun p hp => by rw [scalarCols_len hcols p hp]; rfl)
  unfold buildTable
  rw [hD]
  show (scalarCols r).bind _ = _
  rw [hcols]
  show (mkDataFrame cols [Value.vDate dt]).bind _ = _
  rw [hmk]
  show (if i then _ else _) = _
  cases i with
  | true => rfl
  | false => rfl

theorem buildTable_series_inv {r : RawRecord} {md md' : MetaDict}
    {dates : List Value} {df : DataFrame}
    (hD : get_field r "DATE" = some (.vSeq dates))
    (h : buildTable r md false = some (.pair df md')) :
    df.index = dates ∧ df.cols.map Prod.fst = dataFields r ∧
      ∀ p ∈ df.cols, p.2.length = dates.length := by
  unfold buildTable at h
  rw [hD] at h
  have h1 : (seriesCols r).bind
      (fun cols => (mkDataFrame cols dates).bind
        (fun y => some (ParseOutcome.pair y md))) =
      some (ParseOutcome.pair df md') := h
  cases hcols : seriesCols r with
  | none => rw [hcols] at h1; cases h1
  | some cols =>
      rw [hcols] at h1
      have h2 : (mkDataFrame cols dates).bind
          (fun y => some (ParseOutcome.pair y md)) =
          some (ParseOutcome.pair df md') := h1
      cases hmk : mkDataFrame cols dates with
      | none => rw [hmk] at h2; cases h2
      | some df0 =>
          rw [hmk] at h2
          have h3 : some (ParseOutcome.pair df0 md) =
              some (ParseOutcome.pair df md') := h2
          cases h3
          obtain ⟨hidx, hc, hlen⟩ := mkDataFrame_eq_some hmk
          refine ⟨hidx, ?_, ?_⟩
          · rw [hc]
            exact seriesCols_fst hcols
          · intro p hp
            rw [hc] at hp
            exact hlen p hp

/-! ## Claim theorems -/

/-- C2: `construct_request` concatenates its parts in the fixed order
fields, then date (or date range), then frequency; in particular
`construct_request('X', fields=['P','VO'], date_from='2020-01-01',
date_to='2020-02-01', freq='D')` returns
`'X~=P,VO~2020-01-01~:2020-02-01~D'`, and
`construct_request(['A','B'], date='2020-01-01')` returns
`'A,B~@2020-01-01'`. -/
theorem c2_construct_request_order :
    (∀ (t : Ticker) (f : Option FieldsArg) (d dfrom dto : Option Date)
        (fr : Option String),
      construct_request t f d dfrom dto fr =
        tickerPart t ++ fieldsPart f ++ datePart d dfrom dto ++ freqPart fr) ∧
    construct_request (.one "X") (some (.flist ["P", "VO"])) none
        (some ⟨2020, 1, 1⟩) (some ⟨2020, 2, 1⟩) (some "D") =
      "X~=P,VO~2020-01-01~:2020-02-01~D" ∧
    construct_request (.many ["A", "B"]) none (some ⟨2020, 1, 1⟩) none none none =
      "A,B~@2020-01-01" := by
  refine ⟨?_, rfl, rfl⟩
  intro t f d dfrom dto fr
  cases t <;> rcases f with _ | (fs | fl) <;> cases d <;> cases dfrom <;>
      cases dto <;> cases fr <;>
    simp only [construct_request, tickerPart, fieldsPart, datePart, freqPart]
  all_goals
    first
      | (split <;> rename_i h <;>
          simp [h, String.append_assoc, String.append_empty, String.empty_append])
      | simp [String.append_assoc, String.append_empty, String.empty_append]

/-- C3: a record whose `StatusType` is `'Failure'` raises a
`DatastreamException` carrying the status type, code, message and request
string whenever `raise_on_error` is set, regardless of any `INSTERROR`
fields also present in the record (the theorem places no restriction on
`r.Fields`). -/
theorem c3_failure_raises (sess : Session) (r : RawRecord) (i : Bool)
    (hF : r.StatusType = "Failure") (hR : sess.raise_on_error = true) :
    parse_record sess r i =
      some ({ sess with last_status := some (statusOf r) },
        .exc (r.StatusType ++ " (error " ++ toString r.StatusCode ++ "): " ++
              r.StatusMessage ++ " --> \"" ++ r.Instrument ++ "\"")) := by
  unfold parse_record
  rw [hR, parse_core_fail (by simp [hF])]
  simp [serviceErrMsg, statusOf, Msg.render]

/-- Witness for C3: the failure record `exFail` also carries an `INSTERROR`
field, and the raising session raises the service-level error. -/
theorem c3_failure_raises_witness :
    exFail.StatusType = "Failure" ∧ exSessRaise.raise_on_error = true ∧
    parse_record exSessRaise exFail false =
      some ({ exSessRaise with last_status := some (statusOf exFail) },
        .exc (exFail.StatusType ++ " (error " ++ toString exFail.StatusCode ++
              "): " ++ exFail.StatusMessage ++ " --> \"" ++
              exFail.Instrument ++ "\"")) :=
  ⟨rfl, rfl, c3_failure_raises exSessRaise exFail false rfl rfl⟩

/-- C4: a `'Stale'` record parsed with `raise_on_error` unset emits the
`'[DWE] '`-prefixed warning with the (string) status message, returns an
empty table with empty metadata, and leaves `last_status` with
`StatusType = 'Stale'` as extracted from the record.  (The record-level
status message is a plain string — `status` coerces it with `str` — so the
`';'`-joined branch of `_test_status_and_warn` is not exercised here.) -/
theorem c4_stale_warns (sess : Session) (r : RawRecord) (i : Bool)
    (hS : r.StatusType = "Stale") (hR : sess.raise_on_error = false) :
    parse_record sess r i =
      some ({ sess with
          last_status := some { Source := r.Source, StatusType := "Stale",
                                StatusCode := r.StatusCode,
                                StatusMessage := .s r.StatusMessage,
                                Request := r.Instrument },
          warnings := sess.warnings ++ ["[DWE] " ++ r.StatusMessage] },
        .pair emptyDF []) := by
  unfold parse_record
  rw [hR, parse_core_fail_warn (by simp [hS])]
  have hw : warn_of_status (statusOf r) = ["[DWE] " ++ r.StatusMessage] := by
    unfold warn_of_status
    rw [if_pos (show (statusOf r).StatusType ≠ "Connected" from by simp [statusOf, hS])]
    rfl
  rw [hw]
  simp [statusOf, hS]

/-- Witness for C4: the stale record `exStale` under the non-raising
session. -/
theorem c4_stale_warns_witness :
    exStale.StatusType = "Stale" ∧ exSessWarn.raise_on_error = false ∧
    parse_record exSessWarn exStale false =
      some ({ exSessWarn with
          last_status := some { Source := exStale.Source, StatusType := "Stale",
                                StatusCode := exStale.StatusCode,
                                StatusMessage := .s exStale.StatusMessage,
                                Request := exStale.Instrument },
          warnings := exSessWarn.warnings ++ ["[DWE] " ++ exStale.StatusMessage] },
        .pair emptyDF []) :=
  ⟨rfl, rfl, c4_stale_warns exSessWarn exStale false rfl rfl⟩

/-- C10: `fetch` rejects every non-string ticker (a list of tickers) with a
`DatastreamException` whose session is returned unchanged — in particular
`last_status` is untouched — and the result does not depend on the
transport oracle, so no query is built and no network request happens. -/
theorem c10_fetch_rejects_nonstring (net : String → Option RawRecord)
    (sess : Session) (l : List String) (fields : Option FieldsArg)
    (date date_from date_to : Option Date) (freq : Option String)
    (only_data : Bool) :
    fetch net sess (.many l) fields date date_from date_to freq only_data =
      some (sess, .exc fetchTickerMsg) := rfl

/-- C1: for a `Connected` record with no `INSTERROR` fields, `parse_record`
branches on the shape of `DATE`: a scalar date yields a one-row table
indexed by that date with one (singleton) column per data field; a sequence
of N dates yields a table indexed by that sequence in which every data
column has length N (pandas rejects mismatched columns, so any returned
table satisfies this). -/
theorem c1_shape_detection (sess : Session) (r : RawRecord) (md : MetaDict)
    (hA : r.StatusType = "Connected") (hB : instErrors r = [])
    (hM : buildMeta r = some md) :
    (∀ dt : Date, get_field r "DATE" = some (.vDate dt) →
      ∃ (s' : Session) (df : DataFrame),
        parse_record sess r false = some (s', .pair df md) ∧
        df.index = [Value.vDate dt] ∧ df.cols.map Prod.fst = dataFields r ∧
        ∀ p ∈ df.cols, p.2.length = 1) ∧
    (∀ (dates : List Value) (s' : Session) (df : DataFrame) (md' : MetaDict),
      get_field r "DATE" = some (.vSeq dates) →
      parse_record sess r false = some (s', .pair df md') →
      df.index = dates ∧ df.cols.map Prod.fst = dataFields r ∧
      ∀ p ∈ df.cols, p.2.length = dates.length) := by
  constructor
  · intro dt hD
    obtain ⟨cols, hcols⟩ := scalarCols_isSome r
    refine ⟨({ sess with
               last_status := some (statusOf r)
               warnings := sess.warnings ++ [] } : Session),
            ⟨[Value.vDate dt], cols⟩, ?_, rfl,
            scalarCols_fst hcols, scalarCols_len hcols⟩
    unfold parse_record
    rw [parse_core_ok hA hB hM, buildTable_scalar hD hcols]
    rfl
  · intro dates s' df md' hD hP
    unfold parse_record at hP
    rw [parse_core_ok hA hB hM] at hP
    cases hbt : buildTable r md false with
    | none => rw [hbt] at hP; cases hP
    | some o =>
        rw [hbt] at hP
        cases o with
        | exc m => simp at hP
        | single d => simp at hP
        | pair d m =>
            have h4 : ParseOutcome.pair d m = ParseOutcome.pair df md' := by
              have := Option.some.inj hP
              exact congrArg Prod.snd this
            cases h4
            exact buildTable_series_inv hD hbt

/-- Witness for C1: the scalar record `exOk` produces a one-row table, and
the two-date series record `exSeries` produces the corresponding two-row
table with a length-2 data column. -/
theorem c1_shape_detection_witness :
    (exOk.StatusType = "Connected" ∧ instErrors exOk = [] ∧
     buildMeta exOk = some exOkMeta ∧
     get_field exOk "DATE" = some (.vDate ⟨2020, 1, 1⟩) ∧
     ∃ (s' : Session) (df : DataFrame),
       parse_record exSessWarn exOk false = some (s', .pair df exOkMeta) ∧
       df.index = [Value.vDate ⟨2020, 1, 1⟩] ∧
       df.cols.map Prod.fst = dataFields exOk ∧
       ∀ p ∈ df.cols, p.2.length = 1) ∧
    ((⟨[.vDate ⟨2020, 1, 1⟩, .vDate ⟨2020, 1, 2⟩],
        [("P", [.vStr "1", .vStr "2"])]⟩ : DataFrame).index =
        [Value.vDate ⟨2020, 1, 1⟩, Value.vDate ⟨2020, 1, 2⟩] ∧
      (⟨[.vDate ⟨2020, 1, 1⟩, .vDate ⟨2020, 1, 2⟩],
        [("P", [.vStr "1", .vStr "2"])]⟩ : DataFrame).cols.map Prod.fst =
        dataFields exSeries ∧
      ∀ p ∈ (⟨[.vDate ⟨2020, 1, 1⟩, .vDate ⟨2020, 1, 2⟩],
        [("P", [.vStr "1", .vStr "2"])]⟩ : DataFrame).cols,
        p.2.length = [Value.vDate ⟨2020, 1, 1⟩, Value.vDate ⟨2020, 1, 2⟩].length) :=
  ⟨⟨rfl, rfl, rfl, rfl,
    (c1_shape_detection exSessWarn exOk exOkMeta rfl rfl rfl).1 ⟨2020, 1, 1⟩ rfl⟩,
   (c1_shape_detection exSessWarn exSeries exOkMeta rfl rfl rfl).2
     [.vDate ⟨2020, 1, 1⟩, .vDate ⟨2020, 1, 2⟩]
     ({ exSessWarn with
        last_status := some (statusOf exSeries)
        warnings := exSessWarn.warnings ++ [] } : Session)
     ⟨[.vDate ⟨2020, 1, 1⟩, .vDate ⟨2020, 1, 2⟩], [("P", [.vStr "1", .vStr "2"])]⟩
     exOkMeta rfl rfl⟩

/-- C5: a `Connected` record carrying `INSTERROR` fields, parsed without the
raising policy, overwrites `last_status.StatusMessage` with the collected
error list and `last_status.StatusType` with the sentinel `'INSTERROR'`,
emits the `';'`-joined warning, and proceeds with the empty-string metadata
placeholders. -/
theorem c5_insterror_sentinel (sess : Session) (r : RawRecord) (dt : Date)
    (hA : r.StatusType = "Connected") (hE : instErrors r ≠ [])
    (hR : sess.raise_on_error = false)
    (hD : get_field r "DATE" = some (.vDate dt)) :
    ∃ df : DataFrame,
      parse_record sess r false =
        some ({ sess with
            last_status := some { Source := r.Source, StatusType := "INSTERROR",
                                  StatusCode := r.StatusCode,
                                  StatusMessage := .l (instErrors r),
                                  Request := r.Instrument },
            warnings := sess.warnings ++
              ["[DWE] " ++ String.intercalate ";" (instErrors r)] },
          .pair df [("Frequency", ""), ("Currency", ""),
                    ("DisplayName", ""), ("Symbol", "")]) := by
  obtain ⟨cols, hcols⟩ := scalarCols_isSome r
  refine ⟨⟨[Value.vDate dt], cols⟩, ?_⟩
  unfold parse_record
  rw [hR, parse_core_insterror hA hE, buildTable_scalar hD hcols]
  rfl

/-- Witness for C5: the connected record `exErr` whose only anomaly is an
`INSTERROR` field. -/
theorem c5_insterror_sentinel_witness :
    exErr.StatusType = "Connected" ∧ instErrors exErr ≠ [] ∧
    exSessWarn.raise_on_error = false ∧
    get_field exErr "DATE" = some (.vDate ⟨2020, 1, 1⟩) ∧
    ∃ df : DataFrame,
      parse_record exSessWarn exErr false =
        some ({ exSessWarn with
            last_status := some { Source := exErr.Source,
                                  StatusType := "INSTERROR",
                                  StatusCode := exErr.StatusCode,
                                  StatusMessage := .l (instErrors exErr),
                                  Request := exErr.Instrument },
            warnings := exSessWarn.warnings ++
              ["[DWE] " ++ String.intercalate ";" (instErrors exErr)] },
          .pair df [("Frequency", ""), ("Currency", ""),
                    ("DisplayName", ""), ("Symbol", "")]) :=
  ⟨rfl, by decide, rfl, rfl,
   c5_insterror_sentinel exSessWarn exErr ⟨2020, 1, 1⟩ rfl (by decide) rfl rfl⟩

/-- C8: on a valid single-observation record, `parse_record` with
`inline_metadata` set returns a single one-row table (not a pair) whose
column names are the union of the data fields and the four metadata keys,
each metadata column holding the constant (single-cell) metadata value. -/
theorem c8_inline_metadata (sess : Session) (r : RawRecord) (dt : Date)
    (vf vc vdn vsy : Value)
    (hA : r.StatusType = "Connected") (hB : instErrors r = [])
    (hF : get_field r "FREQUENCY" = some vf) (hC : get_field r "CCY" = some vc)
    (hDN : get_field r "DISPNAME" = some vdn)
    (hSY : get_field r "SYMBOL" = some vsy)
    (hD : get_field r "DATE" = some (.vDate dt)) :
    ∃ (s' : Session) (df : DataFrame),
      parse_record sess r true = some (s', .single df) ∧
      df.index = [Value.vDate dt] ∧
      (∀ n : String, n ∈ df.cols.map Prod.fst ↔
        (n ∈ dataFields r ∨
         n ∈ (["Frequency", "Currency", "DisplayName", "Symbol"] : List String))) ∧
      df.getCol "Frequency" = some [Value.vStr (pyStr vf)] ∧
      df.getCol "Currency" = some [Value.vStr (pyStr vc)] ∧
      df.getCol "DisplayName" = some [Value.vStr (pyStr vdn)] ∧
      df.getCol "Symbol" = some [Value.vStr (pyStr vsy)] := by
  have hM : buildMeta r =
      some [("Frequency", pyStr vf), ("Currency", pyStr vc),
            ("DisplayName", pyStr vdn), ("Symbol", pyStr vsy)] := by
    unfold buildMeta
    rw [hF, hC, hDN, hSY]
  obtain ⟨cols, hcols⟩ := scalarCols_isSome r
  refine ⟨({ sess with
             last_status := some (statusOf r)
             warnings := sess.warnings ++ [] } : Session),
          inlineMeta
            [("Frequency", pyStr vf), ("Currency", pyStr vc),
             ("DisplayName", pyStr vdn), ("Symbol", pyStr vsy)]
            ⟨[Value.vDate dt], cols⟩, ?_, ?_, ?_, ?_, ?_, ?_, ?_⟩
  · unfold parse_record
    rw [parse_core_ok hA hB hM, buildTable_scalar hD hcols]
    rfl
  · show (((((⟨[Value.vDate dt], cols⟩ : DataFrame).setCol
        "Frequency" (.vStr (pyStr vf))).setCol
        "Currency" (.vStr (pyStr vc))).setCol
        "DisplayName" (.vStr (pyStr vdn))).setCol
        "Symbol" (.vStr (pyStr vsy))).index = [Value.vDate dt]
    rw [setCol_index, setCol_index, setCol_index, setCol_index]
  · intro n
    show n ∈ (((((⟨[Value.vDate dt], cols⟩ : DataFrame).setCol
        "Frequency" (.vStr (pyStr vf))).setCol
        "Currency" (.vStr (pyStr vc))).setCol
        "DisplayName" (.vStr (pyStr vdn))).setCol
        "Symbol" (.vStr (pyStr vsy))).cols.map Prod.fst ↔ _
    rw [mem_map_fst_setCol, mem_map_fst_setCol, mem_map_fst_setCol,
        mem_map_fst_setCol]
    have hb : (⟨[Value.vDate dt], cols⟩ : DataFrame).cols.map Prod.fst
        = dataFields r := scalarCols_fst hcols
    rw [hb]
    simp only [List.mem_cons, List.not_mem_nil, or_false]
    tauto
  · show (((((⟨[Value.vDate dt], cols⟩ : DataFrame).setCol
        "Frequency" (.vStr (pyStr vf))).setCol
        "Currency" (.vStr (pyStr vc))).setCol
        "DisplayName" (.vStr (pyStr vdn))).setCol
        "Symbol" (.vStr (pyStr vsy))).getCol "Frequency"
        = some [Value.vStr (pyStr vf)]
    rw [getCol_setCol_ne _ _ (by decide), getCol_setCol_ne _ _ (by decide),
        getCol_setCol_ne _ _ (by decide), getCol_setCol_self]
    rfl
  · show (((((⟨[Value.vDate dt], cols⟩ : DataFrame).setCol
        "Frequency" (.vStr (pyStr vf))).setCol
        "Currency" (.vStr (pyStr vc))).setCol
        "DisplayName" (.vStr (pyStr vdn))).setCol
        "Symbol" (.vStr (pyStr vsy))).getCol "Currency"
        = some [Value.vStr (pyStr vc)]
    rw [getCol_setCol_ne _ _ (by decide), getCol_setCol_ne _ _ (by decide),
        getCol_setCol_self]
    rw [setCol_index]
    rfl
  · show (((((⟨[Value.vDate dt], cols⟩ : DataFrame).setCol
        "Frequency" (.vStr (pyStr vf))).setCol
        "Currency" (.vStr (pyStr vc))).setCol
        "DisplayName" (.vStr (pyStr vdn))).setCol
        "Symbol" (.vStr (pyStr vsy))).getCol "DisplayName"
        = some [Value.vStr (pyStr vdn)]
    rw [getCol_setCol_ne _ _ (by decide), getCol_setCol_self]
    rw [setCol_index, setCol_index]
    rfl
  · show (((((⟨[Value.vDate dt], cols⟩ : DataFrame).setCol
        "Frequency" (.vStr (pyStr vf))).setCol
        "Currency" (.vStr (pyStr vc))).setCol
        "DisplayName" (.vStr (pyStr vdn))).setCol
        "Symbol" (.vStr (pyStr vsy))).getCol "Symbol"
        = some [Value.vStr (pyStr vsy)]
    rw [getCol_setCol_self]
    rw [setCol_index, setCol_index, setCol_index]
    rfl

/-- Witness for C8: inline-metadata parse of the record `exOk`. -/
theorem c8_inline_metadata_witness :
    exOk.StatusType = "Connected" ∧ instErrors exOk = [] ∧
    ∃ (s' : Session) (df : DataFrame),
      parse_record exSessWarn exOk true = some (s', .single df) ∧
      df.index = [Value.vDate ⟨2020, 1, 1⟩] ∧
      (∀ n : String, n ∈ df.cols.map Prod.fst ↔
        (n ∈ dataFields exOk ∨
         n ∈ (["Frequency", "Currency", "DisplayName", "Symbol"] : List String))) ∧
      df.getCol "Frequency" = some [Value.vStr (pyStr (.vStr "D"))] ∧
      df.getCol "Currency" = some [Value.vStr (pyStr (.vStr "USD"))] ∧
      df.getCol "DisplayName" = some [Value.vStr (pyStr (.vStr "Apple"))] ∧
      df.getCol "Symbol" = some [Value.vStr (pyStr (.vStr "AAPL"))] :=
  ⟨rfl, rfl,
   c8_inline_metadata exSessWarn exOk ⟨2020, 1, 1⟩
     (.vStr "D") (.vStr "USD") (.vStr "Apple") (.vStr "AAPL")
     rfl rfl rfl rfl rfl rfl rfl⟩

/-- C9: `parse_record` is idempotent in its observable outputs: a second
parse of the same record under the same policy flag yields the same outcome
and the same `last_status`, also when the first parse overwrote
`last_status` with the `INSTERROR` sentinel (only the warning stream keeps
growing). -/
theorem parse_record_eq (sess : Session) (r : RawRecord) (i : Bool) :
    parse_record sess r i = (parse_core sess.raise_on_error r i).map
      (fun t => (({ sess with
                    last_status := some t.1
                    warnings := sess.warnings ++ t.2.1 } : Session), t.2.2)) := rfl

theorem c9_parse_record_idempotent (sess : Session) (r : RawRecord) (i : Bool)
    (s1 : Session) (o1 : ParseOutcome)
    (h : parse_record sess r i = some (s1, o1)) :
    ∃ s2 : Session, parse_record s1 r i = some (s2, o1) ∧
      s2.last_status = s1.last_status := by
  rw [parse_record_eq] at h
  cases hc : parse_core sess.raise_on_error r i with
  | none => rw [hc] at h; cases h
  | some t =>
      rw [hc] at h
      have h2 := Option.some.inj h
      cases h2
      refine ⟨({ sess with
                 last_status := some t.1
                 warnings := (sess.warnings ++ t.2.1) ++ t.2.1 } : Session),
              ?_, rfl⟩
      rw [parse_record_eq]
      show (parse_core sess.raise_on_error r i).map _ = _
      rw [hc]
      rfl

/-- Witness for C9: re-parsing the `INSTERROR` record `exErr` after the
first parse has installed the sentinel status reproduces the same outcome
and the same `last_status`. -/
theorem c9_parse_record_idempotent_witness :
    ∃ s2 : Session,
      parse_record
        ({ raise_on_error := false
           last_status := some { Source := "Datastream",
                                 StatusType := "INSTERROR", StatusCode := 0,
                                 StatusMessage := .l ["Invalid code"],
                                 Request := "WRONG" }
           warnings := ["[DWE] Invalid code"] } : Session) exErr false =
        some (s2, .pair ⟨[.vDate ⟨2020, 1, 1⟩], []⟩
          [("Frequency", ""), ("Currency", ""),
           ("DisplayName", ""), ("Symbol", "")]) ∧
      s2.last_status = some { Source := "Datastream",
                              StatusType := "INSTERROR", StatusCode := 0,
                              StatusMessage := .l ["Invalid code"],
                              Request := "WRONG" } :=
  c9_parse_record_idempotent exSessWarn exErr false
    ({ raise_on_error := false
       last_status := some { Source := "Datastream",
                             StatusType := "INSTERROR", StatusCode := 0,
                             StatusMessage := .l ["Invalid code"],
                             Request := "WRONG" }
       warnings := ["[DWE] Invalid code"] } : Session)
    (.pair ⟨[.vDate ⟨2020, 1, 1⟩], []⟩
      [("Frequency", ""), ("Currency", ""), ("DisplayName", ""), ("Symbol", "")])
    rfl

/-- Unfolding of `get_constituents` at `date = None` (the query suffix
`str_date` is the empty string). -/
theorem get_constituents_none (net : String → Option RawRecord) (sess : Session)
    (ticker : String) :
    get_constituents net sess ticker none =
      (net ("L" ++ ticker ++ "" ++ "~XREF")).bind (fun raw =>
        if (statusOf raw).StatusType ≠ "Connected" then
          if sess.raise_on_error = true then
            some (({ sess with last_status := some (statusOf raw) } : Session),
              FetchOutcome.exc (serviceErrMsg (statusOf raw)))
          else
            (test_status_and_warn
                ({ sess with last_status := some (statusOf raw) } : Session)).bind
              (fun sess2 => some (sess2, FetchOutcome.data emptyDF))
        else
          if (noUnderscoreKeys raw.Fields).contains "DATE" then
            (constituentCols raw.Fields).bind
              (fun cols =>
                some (({ sess with last_status := some (statusOf raw) } : Session),
                  FetchOutcome.data
                    ⟨defaultIndex (symbolCount raw.Fields), cols⟩))
          else none) := rfl

/-- C6: a successfully retrieved constituents record is reshaped by taking
as columns the no-underscore field names minus `DATE`, as row count the
number of field names containing `SYMBOL`, and as cell `(j, FIELD)` the
record entry named `fld_name FIELD j` (`FIELD` for the first row,
`FIELD_{j+1}` afterwards); the submitted query is
`'L' + ticker + '' + '~XREF'`. -/
theorem c6_constituents_reshape (net : String → Option RawRecord)
    (sess : Session) (ticker : String) (raw : RawRecord) (s' : Session)
    (df : DataFrame)
    (hnet : net ("L" ++ ticker ++ "" ++ "~XREF") = some raw)
    (hst : raw.StatusType = "Connected")
    (hrun : get_constituents net sess ticker none = some (s', .data df)) :
    ("L" ++ ticker ++ "" ++ "~XREF" : String) = "L" ++ ticker ++ "~XREF" ∧
    df.cols.map Prod.fst = constituentFields raw.Fields ∧
    df.index = defaultIndex (symbolCount raw.Fields) ∧
    (∀ p ∈ df.cols, p.2.length = symbolCount raw.Fields) ∧
    (∀ p ∈ df.cols, ∀ j : Nat, j < symbolCount raw.Fields →
      dictGet raw.Fields (fld_name p.1 j) = p.2.get? j) := by
  refine ⟨by rw [String.append_empty], ?_⟩
  rw [get_constituents_none, hnet, Option.some_bind] at hrun
  have h1 := hrun
  rw [if_neg (show ¬ (statusOf raw).StatusType ≠ "Connected" from by
        simp [statusOf, hst])] at h1
  cases hd : (noUnderscoreKeys raw.Fields).contains "DATE" with
  | false => rw [hd] at h1; simp at h1
  | true =>
      rw [hd, if_pos rfl] at h1
      cases hcc : constituentCols raw.Fields with
      | none => rw [hcc] at h1; cases h1
      | some cols =>
          rw [hcc, Option.some_bind] at h1
          have h2 := Option.some.inj h1
          cases h2
          refine ⟨?_, rfl, ?_, ?_⟩
          · show cols.map Prod.fst = constituentFields raw.Fields
            apply omapM_fst ?_ hcc
            intro x p hp
            cases hg : omapM (fun ind => dictGet raw.Fields (fld_name x ind))
                (List.range (symbolCount raw.Fields)) with
            | none => rw [hg] at hp; cases hp
            | some col => rw [hg] at hp; cases hp; rfl
          · intro p hp
            have hp' : p ∈ cols := hp
            obtain ⟨fld, _, hf⟩ := omapM_mem hcc p hp'
            cases hg : omapM (fun ind => dictGet raw.Fields (fld_name fld ind))
                (List.range (symbolCount raw.Fields)) with
            | none => rw [hg] at hf; cases hf
            | some col =>
                rw [hg] at hf
                cases hf
                show col.length = symbolCount raw.Fields
                rw [omapM_length hg, List.length_range]
          · intro p hp j hj
            have hp' : p ∈ cols := hp
            obtain ⟨fld, _, hf⟩ := omapM_mem hcc p hp'
            cases hg : omapM (fun ind => dictGet raw.Fields (fld_name fld ind))
                (List.range (symbolCount raw.Fields)) with
            | none => rw [hg] at hf; cases hf
            | some col =>
                rw [hg] at hf
                cases hf
                have hcell := omapM_get? hg j
                rw [List.get?_range hj, Option.some_bind] at hcell
                exact hcell

/-- Witness for C6: the record with fields `SYMBOL, SYMBOL_2, CCY, CCY_2`
(and `DATE`, no `DATE_2`) yields the two-row table with columns
`SYMBOL, CCY`. -/
theorem c6_constituents_reshape_witness :
    netCon ("L" ++ "IDX" ++ "" ++ "~XREF") = some exCon ∧
    exCon.StatusType = "Connected" ∧
    get_constituents netCon exSessWarn "IDX" none =
      some (({ exSessWarn with last_status := some (statusOf exCon) } : Session),
        .data ⟨[.vNat 0, .vNat 1],
               [("SYMBOL", [.vStr "A", .vStr "B"]),
                ("CCY", [.vStr "USD", .vStr "EUR"])]⟩) ∧
    ("L" ++ "IDX" ++ "" ++ "~XREF" : String) = "L" ++ "IDX" ++ "~XREF" ∧
    (⟨[.vNat 0, .vNat 1],
      [("SYMBOL", [.vStr "A", .vStr "B"]),
       ("CCY", [.vStr "USD", .vStr "EUR"])]⟩ : DataFrame).cols.map Prod.fst =
      constituentFields exCon.Fields ∧
    (⟨[.vNat 0, .vNat 1],
      [("SYMBOL", [.vStr "A", .vStr "B"]),
       ("CCY", [.vStr "USD", .vStr "EUR"])]⟩ : DataFrame).index =
      defaultIndex (symbolCount exCon.Fields) ∧
    (∀ p ∈ (⟨[.vNat 0, .vNat 1],
      [("SYMBOL", [.vStr "A", .vStr "B"]),
       ("CCY", [.vStr "USD", .vStr "EUR"])]⟩ : DataFrame).cols,
      p.2.length = symbolCount exCon.Fields) ∧
    (∀ p ∈ (⟨[.vNat 0, .vNat 1],
      [("SYMBOL", [.vStr "A", .vStr "B"]),
       ("CCY", [.vStr "USD", .vStr "EUR"])]⟩ : DataFrame).cols,
      ∀ j : Nat, j < symbolCount exCon.Fields →
        dictGet exCon.Fields (fld_name p.1 j) = p.2.get? j) :=
  ⟨rfl, rfl, rfl,
   c6_constituents_reshape netCon exSessWarn "IDX" exCon
     ({ exSessWarn with last_status := some (statusOf exCon) } : Session)
     ⟨[.vNat 0, .vNat 1],
      [("SYMBOL", [.vStr "A", .vStr "B"]),
       ("CCY", [.vStr "USD", .vStr "EUR"])]⟩ rfl rfl rfl⟩

/-! ## C7: the post-hoc warning check -/

theorem warn_of_statusOf {r : RawRecord} (hr : r.StatusType ≠ "Connected") :
    warn_of_status (statusOf r) = ["[DWE] " ++ r.StatusMessage] := by
  unfold warn_of_status
  rw [if_pos (show (statusOf r).StatusType ≠ "Connected" from hr)]
  rfl

theorem test_status_and_warn_some (sess0 : Session) (st : Status)
    (W : List String) :
    test_status_and_warn ({ sess0 with
        last_status := some st
        warnings := W } : Session) =
      some ({ sess0 with
        last_status := some st
        warnings := W ++ warn_of_status st } : Session) := rfl

theorem fetch_not_connected {net : String → Option RawRecord} {sess : Session}
    {t : String} {fields : Option FieldsArg} {d dfrom dto : Option Date}
    {freq : Option String} {r : RawRecord} {od : Bool}
    (hnet : net (construct_request (.one t) fields d dfrom dto freq) = some r)
    (hr : r.StatusType ≠ "Connected") (hR : sess.raise_on_error = false) :
    fetch net sess (.one t) fields d dfrom dto freq od =
      some (({ sess with
               last_status := some (statusOf r)
               warnings := sess.warnings ++ ["[DWE] " ++ r.StatusMessage] } :
               Session),
        if od then .data emptyDF else .dataMeta emptyDF []) := by
  unfold fetch
  show (net (construct_request (.one t) fields d dfrom dto freq)).bind _ = _
  rw [hnet]
  show (parse_record sess r false).bind _ = _
  rw [parse_record_eq, hR, parse_core_fail_warn hr]
  rw [warn_of_statusOf hr]
  cases od with
  | true => rfl
  | false => rfl

/-- Counterexample for C7 (the `fetch` conjunct): on a stale record under
the non-raising policy, `fetch` returns a session with exactly one warning;
running the post-hoc `_test_status_and_warn` that the claim attributes to
`fetch` would necessarily append a second copy of the warning (third
conjunct), and its actual result differs from the claimed one (fourth
conjunct).  `get_price`, by contrast, really does warn twice. -/
theorem c7_fetch_no_post_check_counterexample :
    (fetch netStale exSessWarn (.one "X") none none none none (some "D")
        false).map (fun p => p.1.warnings) = some ["[DWE] down"] ∧
    (get_price netStale exSessWarn "X" none none none).map
        (fun p => p.1.warnings) = some ["[DWE] down", "[DWE] down"] ∧
    ((fetch netStale exSessWarn (.one "X") none none none none (some "D")
        false).bind (fun p => (test_status_and_warn p.1).map
          (fun s2 => s2.warnings))) = some ["[DWE] down", "[DWE] down"] ∧
    (fetch netStale exSessWarn (.one "X") none none none none (some "D")
        false).bind (fun p => test_status_and_warn p.1) ≠
      (fetch netStale exSessWarn (.one "X") none none none none (some "D")
        false).map (fun p => p.1) := by
  refine ⟨rfl, rfl, rfl, by decide⟩

/-- Amended C7: `get_price`, `get_OHLC` and `get_OHLCV` each construct the
query (with the fixed `~OHLC`/`~OHLCV` suffix where applicable), submit it,
parse it, run the redundant post-hoc warning check on `last_status`, and
return the table alone; `fetch` constructs, submits, parses and returns the
table (with metadata when requested) but performs no post-hoc check.  On a
non-`Connected` record under the non-raising policy this is observable: the
three getters emit the status warning twice, `fetch` exactly once. -/
theorem c7_amended_post_check (n1 n2 n3 n4 : String → Option RawRecord)
    (sess : Session) (t : String) (d dfrom dto : Option Date) (r : RawRecord)
    (hr : r.StatusType ≠ "Connected") (hR : sess.raise_on_error = false)
    (h1 : n1 (construct_request (.one (t ++ "~OHLCV")) none d dfrom dto
        (some "D")) = some r)
    (h2 : n2 (construct_request (.one (t ++ "~OHLC")) none d dfrom dto
        (some "D")) = some r)
    (h3 : n3 (construct_request (.one t) none d dfrom dto (some "D")) = some r)
    (h4 : n4 (construct_request (.one t) none d dfrom dto (some "D")) = some r) :
    get_OHLCV n1 sess t d dfrom dto =
      some (({ sess with
               last_status := some (statusOf r)
               warnings := sess.warnings ++ ["[DWE] " ++ r.StatusMessage] ++
                 ["[DWE] " ++ r.StatusMessage] } : Session), .data emptyDF) ∧
    get_OHLC n2 sess t d dfrom dto =
      some (({ sess with
               last_status := some (statusOf r)
               warnings := sess.warnings ++ ["[DWE] " ++ r.StatusMessage] ++
                 ["[DWE] " ++ r.StatusMessage] } : Session), .data emptyDF) ∧
    get_price n3 sess t d dfrom dto =
      some (({ sess with
               last_status := some (statusOf r)
               warnings := sess.warnings ++ ["[DWE] " ++ r.StatusMessage] ++
                 ["[DWE] " ++ r.StatusMessage] } : Session), .data emptyDF) ∧
    fetch n4 sess (.one t) none d dfrom dto (some "D") false =
      some (({ sess with
               last_status := some (statusOf r)
               warnings := sess.warnings ++ ["[DWE] " ++ r.StatusMessage] } :
               Session), .dataMeta emptyDF []) := by
  refine ⟨?_, ?_, ?_, fetch_not_connected h4 hr hR⟩
  · unfold get_OHLCV
    rw [fetch_not_connected h1 hr hR]
    show (test_status_and_warn ({ sess with
        last_status := some (statusOf r)
        warnings := sess.warnings ++ ["[DWE] " ++ r.StatusMessage] } :
        Session)).bind (fun sess2 => some (sess2, FetchOutcome.data emptyDF)) = _
    rw [test_status_and_warn_some, warn_of_statusOf hr]
    rfl
  · unfold get_OHLC
    rw [fetch_not_connected h2 hr hR]
    show (test_status_and_warn ({ sess with
        last_status := some (statusOf r)
        warnings := sess.warnings ++ ["[DWE] " ++ r.StatusMessage] } :
        Session)).bind (fun sess2 => some (sess2, FetchOutcome.data emptyDF)) = _
    rw [test_status_and_warn_some, warn_of_statusOf hr]
    rfl
  · unfold get_price
    rw [fetch_not_connected h3 hr hR]
    show (test_status_and_warn ({ sess with
        last_status := some (statusOf r)
        warnings := sess.warnings ++ ["[DWE] " ++ r.StatusMessage] } :
        Session)).bind (fun sess2 => some (sess2, FetchOutcome.data emptyDF)) = _
    rw [test_status_and_warn_some, warn_of_statusOf hr]
    rfl

/-- Witness for the amended C7: all four operations against the stale
oracle. -/
theorem c7_amended_post_check_witness :
    get_OHLCV netStale exSessWarn "X" none none none =
      some (({ exSessWarn with
               last_status := some (statusOf exStale)
               warnings := exSessWarn.warnings ++ ["[DWE] " ++ exStale.StatusMessage]
                 ++ ["[DWE] " ++ exStale.StatusMessage] } : Session),
        .data emptyDF) ∧
    get_OHLC netStale exSessWarn "X" none none none =
      some (({ exSessWarn with
               last_status := some (statusOf exStale)
               warnings := exSessWarn.warnings ++ ["[DWE] " ++ exStale.StatusMessage]
                 ++ ["[DWE] " ++ exStale.StatusMessage] } : Session),
        .data emptyDF) ∧
    get_price netStale exSessWarn "X" none none none =
      some (({ exSessWarn with
               last_status := some (statusOf exStale)
               warnings := exSessWarn.warnings ++ ["[DWE] " ++ exStale.StatusMessage]
                 ++ ["[DWE] " ++ exStale.StatusMessage] } : Session),
        .data emptyDF) ∧
    fetch netStale exSessWarn (.one "X") none none none none (some "D") false =
      some (({ exSessWarn with
               last_status := some (statusOf exStale)
               warnings := exSessWarn.warnings ++
                 ["[DWE] " ++ exStale.StatusMessage] } : Session),
        .dataMeta emptyDF []) :=
  c7_amended_post_check netStale netStale netStale netStale exSessWarn "X"
    none none none exStale (by decide) rfl rfl rfl rfl rfl

end DWE